import Mathlib

/-!
# Bubble Popper: the game logic of `src/GameScreen.js`

A shallow embedding of the `GameScreen` component: its React state hooks and refs become the
fields of `State`, every handler and timer callback becomes a function on `State`, and the
JavaScript timer table (`setInterval`, `setTimeout`, `clearInterval`, `clearTimeout`) is an
explicit list of live timers.

Conventions of the embedding.

* JavaScript numbers are exact rationals; `Math.random()` is an argument of the callback that
  draws it.
* Only statements outside comments are embedded.  The block comment of lines 356-401 contains the
  countdown `setInterval` (and the closing brace of `startGame`); the live body of `startGame` is
  lines 333-354.
* The power-up state (`powerBubbles`, `powerTime`) has no hook in the component: lines 56 and 60
  are comments.  The name `setPowerBubbles` is therefore bound nowhere, and the two live calls
  to it (line 339 in `startGame`, line 160 in `checkPowerHits`, which `fireLaser` calls at
  line 111) raise a `ReferenceError`.  A handler body is embedded as a function to `Outcome`:
  the state updates made before the exception stay, the statements after it do not run.
* A handler runs only through the element it is bound to, with the guard under which that
  element is rendered or enabled (lines 548, 614, 629).
* `laserWidth` (`useState(4)`) and `bubbleSpeed` (`useState(2)`) are never set in live code and
  are constants.
-/

namespace BubblePopper

/-- An entity `{ id, x, y, radius }` as built by the spawners (lines 266-271). -/
structure Bubble where
  id : Nat
  x : ℚ
  y : ℚ
  radius : ℚ
deriving DecidableEq

/-- Viewport size, `Dimensions.get('window')` (line 30). -/
structure Screen where
  screenWidth : ℚ
  screenHeight : ℚ

/-- The callbacks that live code hands to `setInterval` (lines 345, 351, 354) and to
`setTimeout` (line 116). -/
inductive TimerKind
  | spawnBubble
  | spawnPainBubble
  | spawnBonusBubble
  | hideLaser
deriving DecidableEq

/-- One live entry of the JavaScript timer table. -/
structure Timer where
  handle : Nat
  kind : TimerKind
deriving DecidableEq

/-- The state hooks (lines 50-68) and refs (lines 71-78) of `GameScreen`, together with the
timer table. A ref holds `none` for `null` and `some h` for a timer handle. -/
structure State where
  gameStarted : Bool
  gameOver : Bool
  score : Int
  timeLeft : Int
  bubbles : List Bubble
  laserVisible : Bool
  painBubbles : List Bubble
  bonusBubbles : List Bubble
  gunPosition : ℚ
  bubbleIdRef : Nat
  timerRef : Option Nat
  bubbleTimerRef : Option Nat
  powerBubbleTimerRef : Option Nat
  painBubbleTimerRef : Option Nat
  bonusBubbleTimerRef : Option Nat
  laserTimeoutRef : Option Nat
  powerTimeRef : Option Nat
  timers : List Timer
  nextHandle : Nat
deriving DecidableEq

/-- Line 65: `const gunWidth = 60`. -/
def gunWidth : ℚ := 60

/-- Line 59: `useState(4)`; `setLaserWidth` occurs only inside comments. -/
def laserWidth : ℚ := 4

/-- Line 61: `useState(2)`; `setBubbleSpeed` occurs only inside comments. -/
def bubbleSpeed : ℚ := 2

/-- The state at mount: the initial values of lines 50-78, an empty timer table. -/
def initialState (scr : Screen) : State :=
  { gameStarted := false
    gameOver := false
    score := 0
    timeLeft := 120
    bubbles := []
    laserVisible := false
    painBubbles := []
    bonusBubbles := []
    gunPosition := scr.screenWidth / 2 - gunWidth / 2
    bubbleIdRef := 1
    timerRef := none
    bubbleTimerRef := none
    powerBubbleTimerRef := none
    painBubbleTimerRef := none
    bonusBubbleTimerRef := none
    laserTimeoutRef := none
    powerTimeRef := none
    timers := []
    nextHandle := 1 }

/-- The guard `!gameStarted || gameOver` of lines 84, 428, 476, 499 and 548, negated. -/
def running (s : State) : Bool := s.gameStarted && !s.gameOver

/-- Coarse lifecycle, as the overlays of lines 614 and 629 distinguish it. -/
inductive Phase
  | NotStarted
  | Running
  | Ended
deriving DecidableEq

/-- Phase shown by the component: game-over overlay when `gameOver`, start overlay when neither
flag is set. -/
def phase (s : State) : Phase :=
  if s.gameOver then Phase.Ended else if s.gameStarted then Phase.Running else Phase.NotStarted

/-! ## Timer table -/

/-- Effect of `setInterval(cb, _)` / `setTimeout(cb, _)`: a fresh handle is entered in the table
and returned. -/
def setTimer (s : State) (k : TimerKind) : State × Nat :=
  ({ s with timers := s.timers ++ [⟨s.nextHandle, k⟩], nextHandle := s.nextHandle + 1 },
    s.nextHandle)

/-- Effect of `clearInterval(h)` / `clearTimeout(h)`. -/
def clearTimer (s : State) (h : Nat) : State :=
  { s with timers := s.timers.filter (fun t => t.handle != h) }

/-- The idiom `if (ref.current) clearInterval(ref.current)` (lines 102-104, 417-420, 523-527);
the ref itself is left as it is. -/
def clearRef (s : State) (r : Option Nat) : State :=
  match r with
  | some h => clearTimer s h
  | none => s

/-! ## Collision and scoring (lines 125-256) -/

/-- The test of lines 133-139: `Math.abs(bubble.x + bubble.radius - laserX) <= bubble.radius`. -/
def isHit (laserX : ℚ) (bubble : Bubble) : Bool :=
  decide (|bubble.x + bubble.radius - laserX| ≤ bubble.radius)

/-- The `forEach` loop of lines 131-143 (the same text at 200-212 and 234-246): collects
`hitBubbleIds` in order and counts `hitCount`. -/
def scanHits (laserX : ℚ) (prevBubbles : List Bubble) : List Nat × Nat :=
  prevBubbles.foldl
    (fun acc bubble =>
      if isHit laserX bubble then (acc.1 ++ [bubble.id], acc.2 + 1) else acc)
    ([], 0)

/-- The final `filter` of lines 151, 220 and 254:
`prevBubbles.filter(bubble => !hitBubbleIds.includes(bubble.id))`. -/
def dropHit (hitBubbleIds : List Nat) (prevBubbles : List Bubble) : List Bubble :=
  prevBubbles.filter (fun bubble => !hitBubbleIds.contains bubble.id)

/-- Lines 125-153. -/
def checkHits (s : State) (laserX : ℚ) : State :=
  let scan := scanHits laserX s.bubbles
  { s with
    score := if scan.2 > 0 then s.score + scan.2 else s.score
    bubbles := dropHit scan.1 s.bubbles }

/-- Lines 194-222. The guard `score > 0` of line 215 reads the `score` of the render that
created the handler, passed here as `score`; the update itself is `prevScore - hitCount`. -/
def checkPainHits (score : Int) (s : State) (laserX : ℚ) : State :=
  let scan := scanHits laserX s.painBubbles
  { s with
    score := if scan.2 > 0 && decide (score > 0) then s.score - scan.2 else s.score
    painBubbles := dropHit scan.1 s.painBubbles }

/-- Lines 228-256. -/
def checkBonusHits (s : State) (laserX : ℚ) : State :=
  let scan := scanHits laserX s.bonusBubbles
  { s with
    score := if scan.2 > 0 then s.score + scan.2 * 5 else s.score
    bonusBubbles := dropHit scan.1 s.bonusBubbles }

/-- How a handler body ends: `threw` is set when it was left by an exception. The state updates
made before the exception are in `state`. -/
structure Outcome where
  state : State
  threw : Bool

/-- Sequencing of statements: what follows an exception does not run. -/
def Outcome.andThen (o : Outcome) (rest : State → Outcome) : Outcome :=
  if o.threw then o else rest o.state

/-- A call `setPowerBubbles(...)` (lines 160 and 339). No binding of that name exists (line 56
is a comment), so evaluating the call raises a `ReferenceError` and changes nothing. -/
def setPowerBubbles (s : State) : Outcome :=
  { state := s, threw := true }

/-- Lines 159-188: the body is the single call `setPowerBubbles(prevBubbles => ...)`. -/
def checkPowerHits (s : State) (_laserX : ℚ) : Outcome :=
  setPowerBubbles s

/-- Lines 100-119. The hit checks all receive
`gunPosition.x + gunWidth / 2 - laserWidth / 2`; the pain check sees the score of the state in
which the handler was invoked. The second check, `checkPowerHits` (line 111), is where the
body is left. -/
def fireLaser (s : State) : Outcome :=
  let s0 := clearRef s s.laserTimeoutRef
  let s1 := { s0 with laserVisible := true }
  let laserX := s.gunPosition + gunWidth / 2 - laserWidth / 2
  let s2 := checkHits s1 laserX
  (checkPowerHits s2 laserX).andThen fun s3 =>
    let s4 := checkPainHits s.score s3 laserX
    let s5 := checkBonusHits s4 laserX
    let t := setTimer s5 TimerKind.hideLaser
    { state := { t.1 with laserTimeoutRef := some t.2 }, threw := false }

/-- Lines 92-94. -/
def handleGun (s : State) : Outcome := fireLaser s

/-- Lines 83-87. -/
def handleTap (s : State) (locationX : ℚ) : State :=
  if !s.gameStarted || s.gameOver then s
  else { s with gunPosition := locationX - gunWidth / 2 }

/-- Line 548: the game area calls `handleGun` on press and is
`disabled={!gameStarted || gameOver}`. It is the only touchable bound to the fire action; the
`onPress` of line 626 sits on a plain `View`, which dispatches no presses. -/
def pressGameArea (s : State) : State :=
  if !s.gameStarted || s.gameOver then s else (handleGun s).state

/-! ## Spawners (lines 262-326) -/

/-- Lines 262-274; `u` is the value of `Math.random()`. -/
def spawnBubble (scr : Screen) (u : ℚ) (s : State) : State :=
  let radius : ℚ := 30
  let maxX := scr.screenWidth - radius * 2
  let newBubble : Bubble :=
    { id := s.bubbleIdRef, x := u * maxX, y := scr.screenHeight - 100, radius := radius }
  { s with bubbleIdRef := s.bubbleIdRef + 1, bubbles := s.bubbles ++ [newBubble] }

/-- Lines 296-308. -/
def spawnPainBubble (scr : Screen) (u : ℚ) (s : State) : State :=
  let radius : ℚ := 35 / 2
  let maxX := scr.screenWidth - radius * 2
  let newBubble : Bubble :=
    { id := s.bubbleIdRef, x := u * maxX, y := scr.screenHeight - 100, radius := radius }
  { s with bubbleIdRef := s.bubbleIdRef + 1, painBubbles := s.painBubbles ++ [newBubble] }

/-- Lines 314-326. -/
def spawnBonusBubble (scr : Screen) (u : ℚ) (s : State) : State :=
  let radius : ℚ := 20
  let maxX := scr.screenWidth - radius * 2
  let newBubble : Bubble :=
    { id := s.bubbleIdRef, x := u * maxX, y := scr.screenHeight - 100, radius := radius }
  { s with bubbleIdRef := s.bubbleIdRef + 1, bonusBubbles := s.bonusBubbles ++ [newBubble] }

/-! ## Start, reset, unmount (lines 332-421 and 521-529) -/

/-- Lines 332-354, the live body of `startGame`. Line 339, `setPowerBubbles([])`, is where the
body is left, after the writes of lines 333-338. The countdown of lines 387-399 is not part of
the body at all: it lies inside the block comment that opens at line 356. -/
def startGame (s : State) : Outcome :=
  let s1 : State :=
    { s with
      gameStarted := true
      gameOver := false
      score := 0
      timeLeft := 120
      bubbles := []
      painBubbles := [] }
  (setPowerBubbles s1).andThen fun s2 =>
    let s3 : State := { s2 with bonusBubbles := [], laserVisible := false, bubbleIdRef := 1 }
    let t1 := setTimer s3 TimerKind.spawnBubble
    let s4 := { t1.1 with bubbleTimerRef := some t1.2 }
    let t2 := setTimer s4 TimerKind.spawnPainBubble
    let s5 := { t2.1 with painBubbleTimerRef := some t2.2 }
    let t3 := setTimer s5 TimerKind.spawnBonusBubble
    { state := { t3.1 with bonusBubbleTimerRef := some t3.2 }, threw := false }

/-- Lines 408-421. -/
def resetGame (s : State) : State :=
  let s1 : State :=
    { s with
      gameStarted := false
      gameOver := false
      bubbles := []
      score := 0
      timeLeft := 120
      laserVisible := false
      bubbleIdRef := 1 }
  let s2 := clearRef s1 s.timerRef
  let s3 := clearRef s2 s.powerTimeRef
  let s4 := clearRef s3 s.bubbleTimerRef
  clearRef s4 s.powerBubbleTimerRef

/-- Lines 521-529, the cleanup returned by the mount effect. -/
def unmountCleanup (s : State) : State :=
  let s1 := clearRef s s.timerRef
  let s2 := clearRef s1 s.powerTimeRef
  let s3 := clearRef s2 s.bubbleTimerRef
  let s4 := clearRef s3 s.powerBubbleTimerRef
  clearRef s4 s.laserTimeoutRef

/-- Lines 614-622: the Start Game button exists only while `!gameStarted && !gameOver`; a press
runs `startGame`. -/
def pressStart (s : State) : State :=
  if !s.gameStarted && !s.gameOver then (startGame s).state else s

/-- Lines 629-638: the Play Again button exists only while `gameOver`; a press runs
`resetGame`. -/
def pressPlayAgain (s : State) : State :=
  if s.gameOver then resetGame s else s

/-! ## Motion (lines 427-515) -/

/-- The updater of lines 431-440: every bubble moves up by `bubbleSpeed`, then those with
`y > -60` are kept. -/
def moveBubbles (prev : List Bubble) : List Bubble :=
  (prev.map (fun bubble => { bubble with y := bubble.y - bubbleSpeed })).filter
    (fun bubble => decide (bubble.y > -60))

/-- The updater of lines 479-488 (and, with the same text, 502-511): the bubble at position `i`
moves up by `Math.random() * 20`, where `rand i` is the value drawn for it. -/
def moveRandomly (rand : Nat → ℚ) (prev : List Bubble) : List Bubble :=
  (prev.enum.map (fun ib => { ib.2 with y := ib.2.y - rand ib.1 * 20 })).filter
    (fun bubble => decide (bubble.y > -60))

/-- One run of the interval of lines 430-441; the effect exists only while the game runs
(line 428). -/
def moveBubblesTick (s : State) : State :=
  if !s.gameStarted || s.gameOver then s else { s with bubbles := moveBubbles s.bubbles }

/-- One run of the interval of lines 478-489. -/
def movePainBubblesTick (rand : Nat → ℚ) (s : State) : State :=
  if !s.gameStarted || s.gameOver then s
  else { s with painBubbles := moveRandomly rand s.painBubbles }

/-- One run of the interval of lines 501-512. -/
def moveBonusBubblesTick (rand : Nat → ℚ) (s : State) : State :=
  if !s.gameStarted || s.gameOver then s
  else { s with bonusBubbles := moveRandomly rand s.bonusBubbles }

/-! ## Events -/

/-- What can happen to the mounted component: presses on its buttons and touch areas, timers
firing, and the motion intervals of lines 430, 478 and 501. -/
inductive Event
  | pressStart
  | pressPlayAgain
  | tapGunHandler (locationX : ℚ)
  | pressGameArea
  | timerFires (handle : Nat) (u : ℚ)
  | moveBubbles
  | movePainBubbles (rand : Nat → ℚ)
  | moveBonusBubbles (rand : Nat → ℚ)

/-- The timer with handle `h` fires: nothing happens unless it is live; a spawner interval
runs its spawner with the draw `u`; the laser timeout (lines 116-118) hides the laser and,
being a timeout, leaves the table. -/
def timerFires (scr : Screen) (h : Nat) (u : ℚ) (s : State) : State :=
  match s.timers.find? (fun t => t.handle == h) with
  | none => s
  | some t =>
    match t.kind with
    | TimerKind.spawnBubble => spawnBubble scr u s
    | TimerKind.spawnPainBubble => spawnPainBubble scr u s
    | TimerKind.spawnBonusBubble => spawnBonusBubble scr u s
    | TimerKind.hideLaser => { clearTimer s h with laserVisible := false }

/-- One event. -/
def step (scr : Screen) (s : State) : Event → State
  | Event.pressStart => pressStart s
  | Event.pressPlayAgain => pressPlayAgain s
  | Event.tapGunHandler locationX => handleTap s locationX
  | Event.pressGameArea => pressGameArea s
  | Event.timerFires h u => timerFires scr h u s
  | Event.moveBubbles => moveBubblesTick s
  | Event.movePainBubbles rand => movePainBubblesTick rand s
  | Event.moveBonusBubbles rand => moveBonusBubblesTick rand s

/-- The state after a sequence of events. -/
def run (scr : Screen) (s : State) (events : List Event) : State :=
  events.foldl (step scr) s

/-- The operations by which the specification generates the states of a run: every event of
the component and, beyond those, a direct call of each spawner with its draw, whether or not
its interval exists. -/
inductive Operation
  | event (e : Event)
  | spawnBubble (u : ℚ)
  | spawnPainBubble (u : ℚ)
  | spawnBonusBubble (u : ℚ)

/-- One operation. -/
def perform (scr : Screen) (s : State) : Operation → State
  | Operation.event e => step scr s e
  | Operation.spawnBubble u => spawnBubble scr u s
  | Operation.spawnPainBubble u => spawnPainBubble scr u s
  | Operation.spawnBonusBubble u => spawnBonusBubble scr u s

/-- The state after a sequence of operations. -/
def performAll (scr : Screen) (s : State) (ops : List Operation) : State :=
  ops.foldl (perform scr) s

/-! ## The Motion Updater as the specification words it -/

/-- Section 4.3 and section 8 of the specification, for one entity and the step drawn for it:
the new `y` is the old `y` minus the step, `id`, `x` and `radius` stay, and the entity is
discarded when the new `y` is `<= -60`. -/
def specMove (b : Bubble) (step : ℚ) : Option Bubble :=
  if b.y - step ≤ -60 then none
  else some { id := b.id, x := b.x, y := b.y - step, radius := b.radius }

/-! ## Sample inputs -/

/-- A viewport 400 wide and 800 high. -/
def scr400 : Screen := ⟨400, 800⟩

/-- A state whose three collections carry the ids 1 to 5. -/
def distinctIdsState : State :=
  { initialState scr400 with
    bubbles := [⟨1, 0, 0, 30⟩, ⟨2, 500, 0, 30⟩]
    painBubbles := [⟨3, 0, 0, 35 / 2⟩]
    bonusBubbles := [⟨4, 100, 0, 20⟩, ⟨5, 0, 0, 20⟩] }

/-- A running state with score 3 and the collections of `distinctIdsState`. -/
def scoredState : State :=
  { distinctIdsState with gameStarted := true, score := 3 }

/-- A running state with bubbles close to the top edge; the bubbles with id 2, 4 and 6 are the
ones a tick carries to `y <= -60`. -/
def movingState : State :=
  { initialState scr400 with
    gameStarted := true
    bubbles := [⟨1, 10, 100, 30⟩, ⟨2, 50, -58, 30⟩]
    painBubbles := [⟨3, 20, 0, 35 / 2⟩, ⟨4, 70, -55, 35 / 2⟩]
    bonusBubbles := [⟨5, 30, -40, 20⟩, ⟨6, 90, -50, 20⟩] }

/-! ## Invariants -/

/-- What no event changes: the game is not over, 120 seconds are left, `timerRef` is null. -/
def CountdownIdle (s : State) : Prop :=
  s.gameOver = false ∧ s.timeLeft = 120 ∧ s.timerRef = none

/-- No timer is in the table and no entity is in any collection. -/
def NothingLive (s : State) : Prop :=
  s.timers = [] ∧ s.bubbles = [] ∧ s.painBubbles = [] ∧ s.bonusBubbles = []

/-- The entities of the three collections, Regular first, then Pain, then Bonus. -/
def entities (s : State) : List Bubble :=
  s.bubbles ++ s.painBubbles ++ s.bonusBubbles

/-- The collection `c'` comes from `c` by dropping entities and changing `x` or `y` of others:
its ids are a sublist of the ids of `c`, and each of its entities has the id and the radius of
an entity of `c`. -/
def Thins (c' c : List Bubble) : Prop :=
  (c'.map Bubble.id).Sublist (c.map Bubble.id) ∧
    ∀ b' ∈ c', ∃ b ∈ c, b'.id = b.id ∧ b'.radius = b.radius

/-- The id discipline of the spawners: the game is not over, every entity carries an id that
the counter `bubbleIdRef` has already passed and a positive radius, and no id occurs twice. -/
def IdsFresh (s : State) : Prop :=
  s.gameOver = false ∧
    (∀ b ∈ entities s, b.id < s.bubbleIdRef ∧ 0 < b.radius) ∧
    ((entities s).map Bubble.id).Nodup

/-! ## Fire -/

/-- The argument that `fireLaser` passes to every check (lines 110-113):
`gunPosition['x'] + (gunWidth / 2) - (laserWidth / 2)`. -/
def laserX (s : State) : ℚ := s.gunPosition + gunWidth / 2 - laserWidth / 2

/-- A running game on the 400-wide viewport with score 0, the gun at its mount position
`x = 170`, and a lone Regular bubble at `x = 185` with radius 30. -/
def loneBubbleState : State :=
  { initialState scr400 with gameStarted := true, bubbles := [⟨1, 185, 700, 30⟩] }

/-- A running game with score 0, the gun at `x = 170` (laser at 198) and two Pain bubbles under
the laser, a third one and a Regular bubble away from it. -/
def twoPainState : State :=
  { initialState scr400 with
    gameStarted := true
    bubbles := [⟨1, 0, 700, 30⟩]
    painBubbles := [⟨2, 190, 700, 35 / 2⟩, ⟨3, 20, 650, 35 / 2⟩, ⟨4, 181, 600, 35 / 2⟩] }

/-- A running game with score 0, the gun at `x = 170` (laser at 198) and one bubble of each
kind under the laser. -/
def aimedState : State :=
  { initialState scr400 with
    gameStarted := true
    bubbles := [⟨1, 185, 700, 30⟩]
    painBubbles := [⟨2, 185, 700, 35 / 2⟩]
    bonusBubbles := [⟨3, 190, 700, 20⟩]
    bubbleIdRef := 4 }

/-- A running game with score 1 and two Pain bubbles under the laser (gun at 170, laser at
198). -/
def onePointState : State :=
  { initialState scr400 with
    gameStarted := true
    score := 1
    painBubbles := [⟨2, 190, 700, 35 / 2⟩, ⟨3, 181, 600, 35 / 2⟩]
    bubbleIdRef := 4 }

/-- The state in which Play Again is on the screen, as lines 345-354, 116 and 394 are written
to produce it: both flags set, one bubble of each kind, the three spawner intervals (handles 1,
2, 3) and a laser timeout (handle 4) live. -/
def gameOverState : State :=
  { initialState scr400 with
    gameStarted := true
    gameOver := true
    score := 3
    timeLeft := 0
    laserVisible := true
    bubbles := [⟨4, 100, 300, 30⟩]
    painBubbles := [⟨2, 50, 200, 35 / 2⟩]
    bonusBubbles := [⟨3, 200, 400, 20⟩]
    bubbleIdRef := 5
    bubbleTimerRef := some 1
    painBubbleTimerRef := some 2
    bonusBubbleTimerRef := some 3
    laserTimeoutRef := some 4
    timers :=
      [⟨1, TimerKind.spawnBubble⟩, ⟨2, TimerKind.spawnPainBubble⟩,
        ⟨3, TimerKind.spawnBonusBubble⟩, ⟨4, TimerKind.hideLaser⟩]
    nextHandle := 5 }

/-! ## The hit scan -/

theorem scanHits_foldl (laserX : ℚ) (l : List Bubble) (acc : List Nat × Nat) :
    l.foldl
        (fun acc bubble =>
          if isHit laserX bubble then (acc.1 ++ [bubble.id], acc.2 + 1) else acc) acc
      = (acc.1 ++ (l.filter (isHit laserX)).map Bubble.id,
          acc.2 + (l.filter (isHit laserX)).length) := by
  induction l generalizing acc with
  | nil => simp
  | cons b l ih =>
    rw [List.foldl_cons, ih]
    by_cases hb : isHit laserX b = true
    · simp [hb, List.filter_cons, Nat.add_assoc, Nat.add_comm 1]
    · simp [hb, List.filter_cons]

/-- The loop collects the ids of the hit bubbles, in order, and counts them. -/
theorem scanHits_eq (laserX : ℚ) (l : List Bubble) :
    scanHits laserX l
      = ((l.filter (isHit laserX)).map Bubble.id, (l.filter (isHit laserX)).length) := by
  unfold scanHits
  rw [scanHits_foldl]
  simp

/-- Removal is by id: a bubble goes when some hit bubble of the collection carries its id. -/
theorem dropHit_scan (laserX : ℚ) (l : List Bubble) :
    dropHit (scanHits laserX l).1 l
      = l.filter (fun b => !(l.any (fun h => isHit laserX h && h.id == b.id))) := by
  rw [scanHits_eq]
  unfold dropHit
  apply List.filter_congr
  intro b _
  congr 1
  rw [Bool.eq_iff_iff]
  simp only [List.contains, List.elem_iff, List.mem_map, List.mem_filter, List.any_eq_true,
    Bool.and_eq_true, beq_iff_eq]
  constructor
  · rintro ⟨h, ⟨hl, hh⟩, hid⟩
    exact ⟨h, hl, hh, hid⟩
  · rintro ⟨h, hl, hh, hid⟩
    exact ⟨h, ⟨hl, hh⟩, hid⟩

/-- With pairwise distinct ids, removal by id is removal of the hit bubbles. -/
theorem dropHit_scan_of_nodup (laserX : ℚ) (l : List Bubble)
    (hl : (l.map Bubble.id).Nodup) :
    dropHit (scanHits laserX l).1 l = l.filter (fun b => !isHit laserX b) := by
  rw [dropHit_scan]
  apply List.filter_congr
  intro b hb
  congr 1
  rw [Bool.eq_iff_iff]
  simp only [List.any_eq_true, Bool.and_eq_true, beq_iff_eq]
  constructor
  · rintro ⟨h, hmem, hh, hid⟩
    have : h = b := List.inj_on_of_nodup_map hl hmem hb hid
    rw [← this]; exact hh
  · intro hh
    exact ⟨b, hb, hh, rfl⟩

/-- The hit test as an interval: the laser lies between the left and the right edge. -/
theorem isHit_iff (laserX : ℚ) (b : Bubble) :
    isHit laserX b = true ↔ (laserX - 2 * b.radius ≤ b.x ∧ b.x ≤ laserX) := by
  simp only [isHit, decide_eq_true_eq, abs_le]
  constructor
  · rintro ⟨h1, h2⟩; constructor <;> linarith
  · rintro ⟨h1, h2⟩; constructor <;> linarith

/-! ## C2: score deltas of the three checks -/

/-- Score after `checkHits`: one point for each hit bubble. -/
theorem checkHits_score (s : State) (laserX : ℚ) :
    (checkHits s laserX).score = s.score + ((s.bubbles.filter (isHit laserX)).length : Int) := by
  simp only [checkHits, scanHits_eq]
  split_ifs with h
  · rfl
  · have : (s.bubbles.filter (isHit laserX)).length = 0 := by omega
    simp [this]

/-- Score after `checkBonusHits`: five points for each hit bubble. -/
theorem checkBonusHits_score (s : State) (laserX : ℚ) :
    (checkBonusHits s laserX).score
      = s.score + 5 * ((s.bonusBubbles.filter (isHit laserX)).length : Int) := by
  simp only [checkBonusHits, scanHits_eq]
  split_ifs with h
  · ring
  · have : (s.bonusBubbles.filter (isHit laserX)).length = 0 := by omega
    simp [this]

/-- Score after `checkPainHits`, where `score` is the score the handler saw: the hit count is
deducted when that score is positive, and nothing is deducted otherwise. -/
theorem checkPainHits_score (score : Int) (s : State) (laserX : ℚ) :
    (checkPainHits score s laserX).score
      = if 0 < score then s.score - ((s.painBubbles.filter (isHit laserX)).length : Int)
        else s.score := by
  simp only [checkPainHits, scanHits_eq]
  by_cases hs : 0 < score
  · by_cases hc : (s.painBubbles.filter (isHit laserX)).length > 0
    · simp [hs, hc]
    · have : (s.painBubbles.filter (isHit laserX)).length = 0 := by omega
      simp [hs, this]
  · simp [hs]

/-- C2: `checkHits` raises the score by exactly 1 for each Regular entity hit, `checkBonusHits`
by exactly 5 for each Bonus entity hit, and a single Pain hit in `checkPainHits` lowers the score
by exactly 1 when the score is positive and leaves it at 0 when the score is 0. -/
theorem check_score_deltas (s : State) (laserX : ℚ) :
    (checkHits s laserX).score = s.score + ((s.bubbles.filter (isHit laserX)).length : Int) ∧
      (checkBonusHits s laserX).score
        = s.score + 5 * ((s.bonusBubbles.filter (isHit laserX)).length : Int) ∧
      ((s.painBubbles.filter (isHit laserX)).length = 1 → 0 < s.score →
        (checkPainHits s.score s laserX).score = s.score - 1) ∧
      ((s.painBubbles.filter (isHit laserX)).length = 1 → s.score = 0 →
        (checkPainHits s.score s laserX).score = 0) := by
  refine ⟨checkHits_score s laserX, checkBonusHits_score s laserX, ?_, ?_⟩
  · intro h1 hpos
    rw [checkPainHits_score, if_pos hpos, h1]; rfl
  · intro _ h0
    rw [checkPainHits_score, h0]; rfl

/-- Witness for C2: in `scoredState` (score 3) the laser at `x = 10` hits the single Pain
bubble and the score becomes 2; in `distinctIdsState` (score 0) it stays 0. -/
theorem check_score_deltas_witness :
    (scoredState.painBubbles.filter (isHit 10)).length = 1 ∧ 0 < scoredState.score ∧
      (checkPainHits scoredState.score scoredState 10).score = scoredState.score - 1 ∧
      (distinctIdsState.painBubbles.filter (isHit 10)).length = 1 ∧
      distinctIdsState.score = 0 ∧
      (checkPainHits distinctIdsState.score distinctIdsState 10).score = 0 := by
  have hit : isHit 10 ⟨3, 0, 0, 35 / 2⟩ = true := by rw [isHit_iff]; norm_num
  have h1 : (scoredState.painBubbles.filter (isHit 10)).length = 1 := by
    simp [scoredState, distinctIdsState, List.filter_cons, hit]
  have h2 : (distinctIdsState.painBubbles.filter (isHit 10)).length = 1 := by
    simp [distinctIdsState, List.filter_cons, hit]
  exact ⟨h1, by decide, (check_score_deltas scoredState 10).2.2.1 h1 (by decide), h2, rfl,
    (check_score_deltas distinctIdsState 10).2.2.2 h2 rfl⟩

/-! ## C5: one tick of the Motion Updater -/

/-- Mapping and then filtering is one pass that keeps or drops each element in place. -/
theorem map_filter_eq_filterMap {α β : Type} (f : α → β) (p : β → Bool) (l : List α) :
    (l.map f).filter p = l.filterMap (fun a => if p (f a) then some (f a) else none) := by
  induction l with
  | nil => rfl
  | cons a l ih =>
    by_cases h : p (f a) = true
    · simp [List.filter_cons, List.filterMap_cons, h, ih]
    · simp [List.filter_cons, List.filterMap_cons, h, ih]

/-- The code's step on one bubble, `y - step` followed by the test `y > -60`, is `specMove`. -/
theorem move_one_eq_specMove (b : Bubble) (step : ℚ) :
    (if decide (({ b with y := b.y - step } : Bubble).y > -60) = true
      then some ({ b with y := b.y - step } : Bubble) else none) = specMove b step := by
  unfold specMove
  by_cases h : b.y - step ≤ -60
  · have : ¬ (b.y - step > -60) := not_lt.mpr h
    simp [h, this]
  · have : b.y - step > -60 := not_le.mp h
    simp [h, this]

theorem moveBubbles_eq (prev : List Bubble) :
    moveBubbles prev = prev.filterMap (fun b => specMove b 2) := by
  unfold moveBubbles bubbleSpeed
  rw [map_filter_eq_filterMap]
  congr 1
  funext b
  exact move_one_eq_specMove b 2

theorem moveRandomly_eq (rand : Nat → ℚ) (prev : List Bubble) :
    moveRandomly rand prev
      = prev.enum.filterMap (fun ib => specMove ib.2 (rand ib.1 * 20)) := by
  unfold moveRandomly
  rw [map_filter_eq_filterMap]
  congr 1
  funext ib
  exact move_one_eq_specMove ib.2 (rand ib.1 * 20)

/-- C5: while the game runs, one tick of each of the three motion intervals replaces its
collection by the survivors of `specMove`, in their original order: an entity with step `s`
keeps `id`, `x` and `radius`, gets `y - s`, and is dropped exactly when `y - s <= -60`. The
step is 2 for Regular entities; for the Pain or Bonus entity at position `i` it is
`rand i * 20`, which lies in `[0, 20)` for a draw `rand i` in `[0, 1)`. -/
theorem motion_tick_moves_and_discards (s : State) (randPain randBonus : Nat → ℚ)
    (hrun : running s = true)
    (hPain : ∀ i, 0 ≤ randPain i ∧ randPain i < 1)
    (hBonus : ∀ i, 0 ≤ randBonus i ∧ randBonus i < 1) :
    (moveBubblesTick s).bubbles = s.bubbles.filterMap (fun b => specMove b 2) ∧
      (movePainBubblesTick randPain s).painBubbles
        = s.painBubbles.enum.filterMap (fun ib => specMove ib.2 (randPain ib.1 * 20)) ∧
      (moveBonusBubblesTick randBonus s).bonusBubbles
        = s.bonusBubbles.enum.filterMap (fun ib => specMove ib.2 (randBonus ib.1 * 20)) ∧
      (∀ i, 0 ≤ randPain i * 20 ∧ randPain i * 20 < 20) ∧
      (∀ i, 0 ≤ randBonus i * 20 ∧ randBonus i * 20 < 20) ∧
      (∀ (b : Bubble) (step : ℚ), specMove b step = none ↔ b.y - step ≤ -60) ∧
      (∀ (b b' : Bubble) (step : ℚ), specMove b step = some b' →
        b'.id = b.id ∧ b'.x = b.x ∧ b'.radius = b.radius ∧ b'.y = b.y - step ∧
          b.y - step > -60) := by
  have hg : (!s.gameStarted || s.gameOver) = false := by
    unfold running at hrun
    revert hrun
    cases s.gameStarted <;> cases s.gameOver <;> simp
  refine ⟨?_, ?_, ?_, ?_, ?_, ?_, ?_⟩
  · simp only [moveBubblesTick, hg, Bool.false_eq_true, if_false]
    exact moveBubbles_eq s.bubbles
  · simp only [movePainBubblesTick, hg, Bool.false_eq_true, if_false]
    exact moveRandomly_eq randPain s.painBubbles
  · simp only [moveBonusBubblesTick, hg, Bool.false_eq_true, if_false]
    exact moveRandomly_eq randBonus s.bonusBubbles
  · intro i
    constructor <;> linarith [(hPain i).1, (hPain i).2]
  · intro i
    constructor <;> linarith [(hBonus i).1, (hBonus i).2]
  · intro b step
    unfold specMove
    split_ifs with h <;> simp [h]
  · intro b b' step hb
    unfold specMove at hb
    split_ifs at hb with h
    have hb' := Option.some.inj hb
    subst hb'
    exact ⟨rfl, rfl, rfl, rfl, not_le.mp h⟩

/-- Witness for C5: `movingState` with every draw equal to `1 / 2` (a step of 10); the bubbles
with id 2, 4 and 6 leave, the others move up. -/
theorem motion_tick_moves_and_discards_witness :
    running movingState = true ∧ (∀ _ : Nat, (0 : ℚ) ≤ 1 / 2 ∧ (1 / 2 : ℚ) < 1) ∧
      (moveBubblesTick movingState).bubbles = [⟨1, 10, 98, 30⟩] ∧
      (movePainBubblesTick (fun _ => 1 / 2) movingState).painBubbles = [⟨3, 20, -10, 35 / 2⟩] ∧
      (moveBonusBubblesTick (fun _ => 1 / 2) movingState).bonusBubbles
        = [⟨5, 30, -50, 20⟩] := by
  have hr : ∀ _ : Nat, (0 : ℚ) ≤ 1 / 2 ∧ (1 / 2 : ℚ) < 1 := fun _ => by norm_num
  have h := motion_tick_moves_and_discards movingState (fun _ => 1 / 2) (fun _ => 1 / 2)
    (by decide) hr hr
  refine ⟨by decide, hr, ?_, ?_, ?_⟩
  · rw [h.1]
    simp [movingState, initialState, specMove, List.filterMap_cons]
    norm_num
  · rw [h.2.1]
    simp [movingState, initialState, specMove, List.filterMap_cons, List.enum]
    norm_num
  · rw [h.2.2.1]
    simp [movingState, initialState, specMove, List.filterMap_cons, List.enum]
    norm_num

/-! ## Unfolding the handlers on concrete states -/

/-- Clearing through a ref only touches the timer table. -/
theorem clearRef_eq (s : State) (r : Option Nat) :
    clearRef s r
      = { s with
          timers :=
            match r with
            | some h => s.timers.filter (fun t => t.handle != h)
            | none => s.timers } := by
  cases r <;> rfl

/-! ## C12: what a spawner adds -/

/-- A draw in `[0, 1)` scaled by a non-negative `maxX` stays inside `[0, maxX]`. -/
theorem spawn_x_bounds (u width diameter : ℚ) (hu0 : 0 ≤ u) (hu1 : u < 1)
    (hw : diameter ≤ width) :
    0 ≤ u * (width - diameter) ∧ u * (width - diameter) + diameter ≤ width := by
  have hm : 0 ≤ width - diameter := by linarith
  constructor
  · exact mul_nonneg hu0 hm
  · have : u * (width - diameter) ≤ 1 * (width - diameter) :=
      mul_le_mul_of_nonneg_right (le_of_lt hu1) hm
    linarith

/-- C12: for a draw `u` in `[0, 1)`, each spawner appends at the end of its own collection
exactly one entity with radius 30 (Regular), 17.5 (Pain) or 20 (Bonus), `x = u * (W - 2 * radius)`,
`y = screenHeight - 100` and the current value of the id counter as id; the counter then grows
by 1, the entities already present stay in front, and the other two collections are unchanged.
When the screen width `W` is at least `2 * radius`, the new entity satisfies `0 <= x` and
`x + 2 * radius <= W`. -/
theorem spawners_append_one_entity (scr : Screen) (u : ℚ) (s : State)
    (hu0 : 0 ≤ u) (hu1 : u < 1) :
    ((spawnBubble scr u s).bubbles
          = s.bubbles ++ [⟨s.bubbleIdRef, u * (scr.screenWidth - 2 * 30),
              scr.screenHeight - 100, 30⟩] ∧
        (spawnBubble scr u s).painBubbles = s.painBubbles ∧
        (spawnBubble scr u s).bonusBubbles = s.bonusBubbles ∧
        (spawnBubble scr u s).bubbleIdRef = s.bubbleIdRef + 1 ∧
        (2 * 30 ≤ scr.screenWidth →
          0 ≤ u * (scr.screenWidth - 2 * 30) ∧
            u * (scr.screenWidth - 2 * 30) + 2 * 30 ≤ scr.screenWidth)) ∧
      ((spawnPainBubble scr u s).painBubbles
          = s.painBubbles ++ [⟨s.bubbleIdRef, u * (scr.screenWidth - 2 * (35 / 2)),
              scr.screenHeight - 100, 35 / 2⟩] ∧
        (spawnPainBubble scr u s).bubbles = s.bubbles ∧
        (spawnPainBubble scr u s).bonusBubbles = s.bonusBubbles ∧
        (spawnPainBubble scr u s).bubbleIdRef = s.bubbleIdRef + 1 ∧
        (2 * (35 / 2) ≤ scr.screenWidth →
          0 ≤ u * (scr.screenWidth - 2 * (35 / 2)) ∧
            u * (scr.screenWidth - 2 * (35 / 2)) + 2 * (35 / 2) ≤ scr.screenWidth)) ∧
      ((spawnBonusBubble scr u s).bonusBubbles
          = s.bonusBubbles ++ [⟨s.bubbleIdRef, u * (scr.screenWidth - 2 * 20),
              scr.screenHeight - 100, 20⟩] ∧
        (spawnBonusBubble scr u s).bubbles = s.bubbles ∧
        (spawnBonusBubble scr u s).painBubbles = s.painBubbles ∧
        (spawnBonusBubble scr u s).bubbleIdRef = s.bubbleIdRef + 1 ∧
        (2 * 20 ≤ scr.screenWidth →
          0 ≤ u * (scr.screenWidth - 2 * 20) ∧
            u * (scr.screenWidth - 2 * 20) + 2 * 20 ≤ scr.screenWidth)) := by
  refine ⟨⟨?_, rfl, rfl, rfl, fun hw => spawn_x_bounds u _ _ hu0 hu1 hw⟩,
    ⟨?_, rfl, rfl, rfl, fun hw => spawn_x_bounds u _ _ hu0 hu1 hw⟩,
    ⟨?_, rfl, rfl, rfl, fun hw => spawn_x_bounds u _ _ hu0 hu1 hw⟩⟩
  · simp only [spawnBubble, mul_comm (30 : ℚ) 2]
  · simp only [spawnPainBubble, mul_comm (35 / 2 : ℚ) 2]
  · simp only [spawnBonusBubble, mul_comm (20 : ℚ) 2]

/-- Witness for C12: the 400-wide viewport, the draw `1 / 2`, the state at mount; the three
new entities sit at `x = 170`, `x = 365 / 2` and `x = 180`. -/
theorem spawners_append_one_entity_witness :
    (0 : ℚ) ≤ 1 / 2 ∧ (1 / 2 : ℚ) < 1 ∧ (2 * 30 : ℚ) ≤ scr400.screenWidth ∧
      (spawnBubble scr400 (1 / 2) (initialState scr400)).bubbles = [⟨1, 170, 700, 30⟩] ∧
      (spawnPainBubble scr400 (1 / 2) (initialState scr400)).painBubbles
        = [⟨1, 365 / 2, 700, 35 / 2⟩] ∧
      (spawnBonusBubble scr400 (1 / 2) (initialState scr400)).bonusBubbles
        = [⟨1, 180, 700, 20⟩] ∧
      (0 : ℚ) ≤ 1 / 2 * (scr400.screenWidth - 2 * 30) ∧
      1 / 2 * (scr400.screenWidth - 2 * 30) + 2 * 30 ≤ scr400.screenWidth := by
  have h := spawners_append_one_entity scr400 (1 / 2) (initialState scr400)
    (by norm_num) (by norm_num)
  have hw : (2 * 30 : ℚ) ≤ scr400.screenWidth := by norm_num [scr400]
  refine ⟨by norm_num, by norm_num, hw, ?_, ?_, ?_, (h.1.2.2.2.2 hw).1, (h.1.2.2.2.2 hw).2⟩
  · rw [h.1.1]
    simp [initialState, scr400]
    norm_num
  · rw [h.2.1.1]
    simp [initialState, scr400]
    norm_num
  · rw [h.2.2.1]
    simp [initialState, scr400]
    norm_num

/-! ## C14: resetting twice -/

/-- Timer table after `if (ref.current) clearInterval(ref.current)`. -/
theorem clearRef_timers (s : State) (r : Option Nat) :
    (clearRef s r).timers = s.timers.filter (fun t => !(r == some t.handle)) := by
  cases r with
  | none => simp [clearRef]
  | some h =>
    simp only [clearRef, clearTimer]
    apply List.filter_congr
    intro t _
    by_cases hh : t.handle = h
    · simp [hh]
    · have hh' : ¬ h = t.handle := fun e => hh e.symm
      have e1 : (t.handle != h) = true := by simpa [bne_iff_ne] using hh
      have e2 : (some h == some t.handle) = false := by simpa using hh'
      rw [e1, e2]
      rfl

/-- Timer table after `resetGame`: the timers held by `timerRef`, `powerTimeRef`,
`bubbleTimerRef` and `powerBubbleTimerRef` are gone, all others stay. -/
theorem resetGame_timers (s : State) :
    (resetGame s).timers
      = s.timers.filter (fun t =>
          !(s.timerRef == some t.handle) && !(s.powerTimeRef == some t.handle)
            && !(s.bubbleTimerRef == some t.handle)
            && !(s.powerBubbleTimerRef == some t.handle)) := by
  unfold resetGame
  simp only [clearRef_timers, List.filter_filter]
  apply List.filter_congr
  intro t _
  generalize (s.timerRef == some t.handle) = a
  generalize (s.powerTimeRef == some t.handle) = b
  generalize (s.bubbleTimerRef == some t.handle) = c
  generalize (s.powerBubbleTimerRef == some t.handle) = d
  cases a <;> cases b <;> cases c <;> cases d <;> rfl

/-- `resetGame` written out: the fields it sets and the timer table it leaves. -/
theorem resetGame_eq (s : State) :
    resetGame s
      = { s with
          gameStarted := false
          gameOver := false
          bubbles := []
          score := 0
          timeLeft := 120
          laserVisible := false
          bubbleIdRef := 1
          timers := (resetGame s).timers } := by
  simp [resetGame, clearRef_eq]

/-- C14: `resetGame` is idempotent: for every state, resetting twice in a row yields the state
that one reset yields, and that state has phase NotStarted. -/
theorem resetGame_idempotent (s : State) :
    resetGame (resetGame s) = resetGame s ∧ phase (resetGame s) = Phase.NotStarted := by
  have hrefs : (resetGame s).timerRef = s.timerRef ∧ (resetGame s).powerTimeRef = s.powerTimeRef
      ∧ (resetGame s).bubbleTimerRef = s.bubbleTimerRef
      ∧ (resetGame s).powerBubbleTimerRef = s.powerBubbleTimerRef := by
    rw [resetGame_eq s]
    exact ⟨rfl, rfl, rfl, rfl⟩
  have ht : (resetGame (resetGame s)).timers = (resetGame s).timers := by
    rw [resetGame_timers (resetGame s), hrefs.1, hrefs.2.1, hrefs.2.2.1, hrefs.2.2.2,
      resetGame_timers s, List.filter_filter]
    apply List.filter_congr
    intro t _
    simp
  constructor
  · rw [resetGame_eq (resetGame s), ht]
    rw [resetGame_eq s]
  · rw [resetGame_eq s]
    rfl

/-! ## C4: fire outside the Running phase -/

/-- The phase is `Running` exactly when the guard `!gameStarted || gameOver` is false. -/
theorem phase_eq_running_iff (s : State) : phase s = Phase.Running ↔ running s = true := by
  unfold phase running
  cases s.gameStarted <;> cases s.gameOver <;> simp

/-- C4: in a state whose phase is not Running, a press on the game area (the fire action)
leaves the state as it is; in particular the regular, pain and bonus collections and the score
are unchanged. -/
theorem fire_ignored_outside_running (s : State) (h : phase s ≠ Phase.Running) :
    pressGameArea s = s ∧ (pressGameArea s).bubbles = s.bubbles ∧
      (pressGameArea s).painBubbles = s.painBubbles ∧
      (pressGameArea s).bonusBubbles = s.bonusBubbles ∧
      (pressGameArea s).score = s.score := by
  have hs : pressGameArea s = s := by
    unfold pressGameArea
    split_ifs with hg
    · rfl
    · exfalso
      apply h
      rw [phase_eq_running_iff]
      unfold running
      revert hg
      cases s.gameStarted <;> cases s.gameOver <;> simp
  rw [hs]
  exact ⟨rfl, rfl, rfl, rfl, rfl⟩

/-- Witness for C4: the state at mount (phase NotStarted), with entities present. -/
theorem fire_ignored_outside_running_witness :
    phase distinctIdsState ≠ Phase.Running ∧
      pressGameArea distinctIdsState = distinctIdsState ∧
      (pressGameArea distinctIdsState).bubbles = distinctIdsState.bubbles ∧
      (pressGameArea distinctIdsState).painBubbles = distinctIdsState.painBubbles ∧
      (pressGameArea distinctIdsState).bonusBubbles = distinctIdsState.bonusBubbles ∧
      (pressGameArea distinctIdsState).score = distinctIdsState.score :=
  ⟨by decide, fire_ignored_outside_running distinctIdsState (by decide)⟩

/-! ## What one shot does -/

/-- While the game runs the guard of the handlers is false. -/
theorem guard_false_of_running (s : State) (h : running s = true) :
    (!s.gameStarted || s.gameOver) = false := by
  unfold running at h
  revert h
  cases s.gameStarted <;> cases s.gameOver <;> simp

/-- The body of `fireLaser` is left at line 111: what stays is the cleared timeout, the visible
laser and the effect of `checkHits`. -/
theorem fireLaser_eq (s : State) :
    fireLaser s
      = { state := checkHits { clearRef s s.laserTimeoutRef with laserVisible := true } (laserX s)
          threw := true } := rfl

theorem fireLaser_gunPosition (s : State) : (fireLaser s).state.gunPosition = s.gunPosition := by
  simp [fireLaser_eq, clearRef_eq, checkHits]

theorem fireLaser_bubbles (s : State) :
    (fireLaser s).state.bubbles = (checkHits s (laserX s)).bubbles := by
  simp [fireLaser_eq, clearRef_eq, checkHits]

/-- A shot does not touch the Pain collection. -/
theorem fireLaser_painBubbles (s : State) :
    (fireLaser s).state.painBubbles = s.painBubbles := by
  simp [fireLaser_eq, clearRef_eq, checkHits]

/-- A shot does not touch the Bonus collection. -/
theorem fireLaser_bonusBubbles (s : State) :
    (fireLaser s).state.bonusBubbles = s.bonusBubbles := by
  simp [fireLaser_eq, clearRef_eq, checkHits]

/-- A shot creates no timer. -/
theorem fireLaser_timers (s : State) :
    (fireLaser s).state.timers = (clearRef s s.laserTimeoutRef).timers := by
  simp [fireLaser_eq, checkHits]

/-- Score after one shot: one point for each Regular bubble hit, nothing else. -/
theorem fireLaser_score (s : State) :
    (fireLaser s).state.score
      = s.score + ((s.bubbles.filter (isHit (laserX s))).length : Int) := by
  rw [fireLaser_eq]
  show (checkHits _ (laserX s)).score = _
  rw [checkHits_score]
  simp [clearRef_eq]

theorem laserX_fireLaser (s : State) : laserX (fireLaser s).state = laserX s := by
  unfold laserX
  rw [fireLaser_gunPosition]

theorem fireLaser_guard (s : State) :
    (!(fireLaser s).state.gameStarted || (fireLaser s).state.gameOver)
      = (!s.gameStarted || s.gameOver) := by
  simp [fireLaser_eq, clearRef_eq, checkHits]

/-- The body of `startGame` is left at line 339: what stays are the writes of lines 333-338. -/
theorem startGame_eq (s : State) :
    startGame s
      = { state :=
            { s with
              gameStarted := true
              gameOver := false
              score := 0
              timeLeft := 120
              bubbles := []
              painBubbles := [] }
          threw := true } := rfl

/-! ## C8: the countdown -/

theorem countdownIdle_step (scr : Screen) (s : State) (e : Event) (h : CountdownIdle s) :
    CountdownIdle (step scr s e) := by
  obtain ⟨h1, h2, h3⟩ := h
  cases e with
  | pressStart =>
    simp only [step, pressStart]
    split_ifs
    · exact ⟨rfl, rfl, h3⟩
    · exact ⟨h1, h2, h3⟩
  | pressPlayAgain =>
    simp only [step, pressPlayAgain]
    split_ifs
    · refine ⟨?_, ?_, ?_⟩
      · simp [resetGame, clearRef_eq]
      · simp [resetGame, clearRef_eq]
      · simpa [resetGame, clearRef_eq] using h3
    · exact ⟨h1, h2, h3⟩
  | tapGunHandler locationX =>
    simp only [step, handleTap]
    split_ifs
    · exact ⟨h1, h2, h3⟩
    · exact ⟨h1, h2, h3⟩
  | pressGameArea =>
    simp only [step, pressGameArea]
    split_ifs
    · exact ⟨h1, h2, h3⟩
    · exact ⟨by simpa [handleGun, fireLaser_eq, clearRef_eq, checkHits] using h1,
        by simpa [handleGun, fireLaser_eq, clearRef_eq, checkHits] using h2,
        by simpa [handleGun, fireLaser_eq, clearRef_eq, checkHits] using h3⟩
  | timerFires handle u =>
    simp only [step, timerFires]
    split
    · exact ⟨h1, h2, h3⟩
    · split <;> exact ⟨h1, h2, h3⟩
  | moveBubbles =>
    simp only [step, moveBubblesTick]
    split_ifs <;> exact ⟨h1, h2, h3⟩
  | movePainBubbles rand =>
    simp only [step, movePainBubblesTick]
    split_ifs <;> exact ⟨h1, h2, h3⟩
  | moveBonusBubbles rand =>
    simp only [step, moveBonusBubblesTick]
    split_ifs <;> exact ⟨h1, h2, h3⟩

theorem countdownIdle_run (scr : Screen) (events : List Event) (s : State)
    (h : CountdownIdle s) : CountdownIdle (run scr s events) := by
  induction events generalizing s with
  | nil => exact h
  | cons e es ih => exact ih (step scr s e) (countdownIdle_step scr s e h)

/-- C8 fails on the code: whatever events follow the mount (starts, resets, taps, shots, timers
firing, motion ticks), `timeLeft` stays 120, `gameOver` stays false and `timerRef` stays null, so
the phase Ended is never reached. The countdown interval of lines 387-399 is inside the block
comment of lines 356-401. -/
theorem countdown_never_runs (scr : Screen) (events : List Event) :
    (run scr (initialState scr) events).timeLeft = 120 ∧
      (run scr (initialState scr) events).gameOver = false ∧
      (run scr (initialState scr) events).timerRef = none ∧
      phase (run scr (initialState scr) events) ≠ Phase.Ended := by
  have h := countdownIdle_run scr events (initialState scr) ⟨rfl, rfl, rfl⟩
  obtain ⟨h1, h2, h3⟩ := h
  refine ⟨h2, h1, h3, ?_⟩
  unfold phase
  rw [h1]
  cases (run scr (initialState scr) events).gameStarted <;> simp

/-! ## More on the checks -/

/-- Whatever the ids, a hit bubble is not in the collection after the check. -/
theorem not_mem_dropHit_of_isHit (laserX : ℚ) (l : List Bubble) (b : Bubble)
    (hb : b ∈ l) (hit : isHit laserX b = true) :
    b ∉ dropHit (scanHits laserX l).1 l := by
  rw [dropHit_scan]
  intro hmem
  have h := (List.mem_filter.mp hmem).2
  have hany : (l.any fun h => isHit laserX h && h.id == b.id) = true := by
    rw [List.any_eq_true]
    exact ⟨b, hb, by simp [hit]⟩
  simp [hany] at h

/-- When nothing is hit the check returns the collection as it was. -/
theorem dropHit_scan_of_no_hit (laserX : ℚ) (l : List Bubble)
    (h : l.filter (isHit laserX) = []) :
    dropHit (scanHits laserX l).1 l = l := by
  rw [scanHits_eq, h]
  simp [dropHit]

/-! ## C15: checking twice -/

/-- After a check no bubble of the collection is under the laser. -/
theorem filter_isHit_dropHit_scan (laserX : ℚ) (c : List Bubble) :
    (dropHit (scanHits laserX c).1 c).filter (isHit laserX) = [] := by
  rw [List.filter_eq_nil_iff]
  intro b hb hit
  have hc : b ∈ c := by
    unfold dropHit at hb
    exact (List.mem_filter.mp hb).1
  exact not_mem_dropHit_of_isHit laserX c b hc hit hb

/-- With no id collected the final filter keeps everything. -/
theorem dropHit_nil (c : List Bubble) : dropHit [] c = c := by
  simp [dropHit]

/-- A check applied to its own result counts no hit. -/
theorem scanHits_dropHit_scan (laserX : ℚ) (c : List Bubble) :
    scanHits laserX (dropHit (scanHits laserX c).1 c) = ([], 0) := by
  rw [scanHits_eq, filter_isHit_dropHit_scan]
  rfl

/-- A check applied to its own result returns it unchanged. -/
theorem dropHit_scan_idem (laserX : ℚ) (c : List Bubble) :
    dropHit (scanHits laserX (dropHit (scanHits laserX c).1 c)).1 (dropHit (scanHits laserX c).1 c)
      = dropHit (scanHits laserX c).1 c :=
  dropHit_scan_of_no_hit laserX _ (filter_isHit_dropHit_scan laserX c)

/-- C15: each hit check is idempotent for a fixed `laserX`. For every collection `c`, the check
applied to its own result counts zero hits and returns that result unchanged; hence `checkHits`,
`checkPainHits` and `checkBonusHits` applied a second time leave the whole state as the first
application left it, and a second fire action from the same gun position, with nothing in
between, leaves the three collections and the score as the first one left them. -/
theorem hit_checks_idempotent (s : State) (score score' : Int) (lx : ℚ) :
    (∀ c : List Bubble,
        scanHits lx (dropHit (scanHits lx c).1 c) = ([], 0) ∧
          dropHit (scanHits lx (dropHit (scanHits lx c).1 c)).1 (dropHit (scanHits lx c).1 c)
            = dropHit (scanHits lx c).1 c) ∧
      checkHits (checkHits s lx) lx = checkHits s lx ∧
      checkPainHits score' (checkPainHits score s lx) lx = checkPainHits score s lx ∧
      checkBonusHits (checkBonusHits s lx) lx = checkBonusHits s lx ∧
      (pressGameArea (pressGameArea s)).gunPosition = s.gunPosition ∧
      (pressGameArea (pressGameArea s)).bubbles = (pressGameArea s).bubbles ∧
      (pressGameArea (pressGameArea s)).painBubbles = (pressGameArea s).painBubbles ∧
      (pressGameArea (pressGameArea s)).bonusBubbles = (pressGameArea s).bonusBubbles ∧
      (pressGameArea (pressGameArea s)).score = (pressGameArea s).score := by
  refine ⟨fun c => ⟨scanHits_dropHit_scan lx c, dropHit_scan_idem lx c⟩, ?_, ?_, ?_, ?_⟩
  · simp [checkHits, scanHits_dropHit_scan, dropHit_nil]
  · simp [checkPainHits, scanHits_dropHit_scan, dropHit_nil]
  · simp [checkBonusHits, scanHits_dropHit_scan, dropHit_nil]
  · by_cases hg : (!s.gameStarted || s.gameOver) = true
    · have h1 : pressGameArea s = s := by simp only [pressGameArea, hg, if_true]
      rw [h1, h1]
      exact ⟨rfl, rfl, rfl, rfl, rfl⟩
    · have h1 : pressGameArea s = (fireLaser s).state := by
        simp only [pressGameArea, hg, Bool.false_eq_true, if_false, handleGun]
      have hg' : ¬ (!(fireLaser s).state.gameStarted || (fireLaser s).state.gameOver) = true := by
        rw [fireLaser_guard]; exact hg
      have h2 : pressGameArea (fireLaser s).state = (fireLaser (fireLaser s).state).state := by
        simp only [pressGameArea, hg', Bool.false_eq_true, if_false, handleGun]
      have hb : (fireLaser s).state.bubbles
          = dropHit (scanHits (laserX s) s.bubbles).1 s.bubbles :=
        fireLaser_bubbles s
      rw [h1, h2]
      refine ⟨?_, ?_, ?_, ?_, ?_⟩
      · rw [fireLaser_gunPosition, fireLaser_gunPosition]
      · rw [fireLaser_bubbles (fireLaser s).state, laserX_fireLaser]
        show dropHit (scanHits (laserX s) (fireLaser s).state.bubbles).1
          (fireLaser s).state.bubbles = _
        rw [hb]
        exact dropHit_scan_idem (laserX s) s.bubbles
      · rw [fireLaser_painBubbles]
      · rw [fireLaser_bonusBubbles]
      · rw [fireLaser_score (fireLaser s).state, laserX_fireLaser, hb,
          filter_isHit_dropHit_scan]
        simp

/-! ## C6: what a press on Start Game sets up -/

theorem nothingLive_step (scr : Screen) (s : State) (e : Event) (h : NothingLive s) :
    NothingLive (step scr s e) := by
  obtain ⟨h1, h2, h3, h4⟩ := h
  cases e with
  | pressStart =>
    simp only [step, pressStart]
    split_ifs
    · exact ⟨h1, rfl, rfl, h4⟩
    · exact ⟨h1, h2, h3, h4⟩
  | pressPlayAgain =>
    simp only [step, pressPlayAgain]
    split_ifs
    · refine ⟨?_, ?_, ?_, ?_⟩
      · rw [resetGame_timers, h1]; rfl
      · simp [resetGame, clearRef_eq]
      · simpa [resetGame, clearRef_eq] using h3
      · simpa [resetGame, clearRef_eq] using h4
    · exact ⟨h1, h2, h3, h4⟩
  | tapGunHandler locationX =>
    simp only [step, handleTap]
    split_ifs <;> exact ⟨h1, h2, h3, h4⟩
  | pressGameArea =>
    simp only [step, pressGameArea]
    split_ifs
    · exact ⟨h1, h2, h3, h4⟩
    · refine ⟨?_, ?_, ?_, ?_⟩
      · show (fireLaser s).state.timers = []
        rw [fireLaser_timers, clearRef_timers, h1]; rfl
      · show (fireLaser s).state.bubbles = []
        rw [fireLaser_bubbles]
        simp [checkHits, dropHit, h2]
      · show (fireLaser s).state.painBubbles = []
        rw [fireLaser_painBubbles]; exact h3
      · show (fireLaser s).state.bonusBubbles = []
        rw [fireLaser_bonusBubbles]; exact h4
  | timerFires handle u =>
    simp only [step, timerFires, h1, List.find?_nil]
    exact ⟨h1, h2, h3, h4⟩
  | moveBubbles =>
    simp only [step, moveBubblesTick]
    split_ifs
    · exact ⟨h1, h2, h3, h4⟩
    · exact ⟨h1, by simp [moveBubbles, h2], h3, h4⟩
  | movePainBubbles rand =>
    simp only [step, movePainBubblesTick]
    split_ifs
    · exact ⟨h1, h2, h3, h4⟩
    · exact ⟨h1, h2, by simp [moveRandomly, h3], h4⟩
  | moveBonusBubbles rand =>
    simp only [step, moveBonusBubblesTick]
    split_ifs
    · exact ⟨h1, h2, h3, h4⟩
    · exact ⟨h1, h2, h3, by simp [moveRandomly, h4]⟩

theorem nothingLive_run (scr : Screen) (events : List Event) (s : State)
    (h : NothingLive s) : NothingLive (run scr s events) := by
  induction events generalizing s with
  | nil => exact h
  | cons e es ih => exact ih (step scr s e) (nothingLive_step scr s e h)

/-- C6 fails on the code: a press on Start Game at mount reaches phase Running with score 0,
`timeLeft` 120 and three empty collections, but the body of `startGame` is left at line 339
(`setPowerBubbles` is bound nowhere) before any `setInterval`. The timer table stays empty and
the four timer refs stay null, so no spawner and no countdown is active; in any state
`startGame` leaves the timer table, `bonusBubbles` and `bubbleIdRef` as they were; and whatever
events follow the mount, the timer table and the three collections stay empty. -/
theorem startGame_starts_no_timer (scr : Screen) :
    (startGame (initialState scr)).threw = true ∧
      phase (pressStart (initialState scr)) = Phase.Running ∧
      (pressStart (initialState scr)).score = 0 ∧
      (pressStart (initialState scr)).timeLeft = 120 ∧
      (pressStart (initialState scr)).bubbles = [] ∧
      (pressStart (initialState scr)).painBubbles = [] ∧
      (pressStart (initialState scr)).bonusBubbles = [] ∧
      (pressStart (initialState scr)).timers = [] ∧
      (pressStart (initialState scr)).timerRef = none ∧
      (pressStart (initialState scr)).bubbleTimerRef = none ∧
      (pressStart (initialState scr)).painBubbleTimerRef = none ∧
      (pressStart (initialState scr)).bonusBubbleTimerRef = none ∧
      (∀ s : State, (startGame s).state.timers = s.timers ∧
        (startGame s).state.bonusBubbles = s.bonusBubbles ∧
        (startGame s).state.bubbleIdRef = s.bubbleIdRef) ∧
      (∀ events : List Event,
        (run scr (initialState scr) events).timers = [] ∧
          (run scr (initialState scr) events).bubbles = [] ∧
          (run scr (initialState scr) events).painBubbles = [] ∧
          (run scr (initialState scr) events).bonusBubbles = []) :=
  ⟨rfl, rfl, rfl, rfl, rfl, rfl, rfl, rfl, rfl, rfl, rfl, rfl, fun _ => ⟨rfl, rfl, rfl⟩,
    fun events => nothingLive_run scr events (initialState scr) ⟨rfl, rfl, rfl, rfl⟩⟩

/-! ## C7: what `resetGame` clears -/

/-- C7 fails on the code: `resetGame` never touches `painBubbles` and `bonusBubbles`. A press
on Play Again in `gameOverState` gives phase NotStarted, score 0, `timeLeft` 120 and an empty
regular collection, while the Pain bubble and the Bonus bubble are still there. -/
theorem resetGame_keeps_pain_and_bonus :
    (∀ s : State, (resetGame s).painBubbles = s.painBubbles ∧
        (resetGame s).bonusBubbles = s.bonusBubbles) ∧
      pressPlayAgain gameOverState = resetGame gameOverState ∧
      phase (pressPlayAgain gameOverState) = Phase.NotStarted ∧
      (pressPlayAgain gameOverState).score = 0 ∧
      (pressPlayAgain gameOverState).timeLeft = 120 ∧
      (pressPlayAgain gameOverState).bubbles = [] ∧
      (pressPlayAgain gameOverState).painBubbles = [⟨2, 50, 200, 35 / 2⟩] ∧
      (pressPlayAgain gameOverState).bonusBubbles = [⟨3, 200, 400, 20⟩] := by
  have hp : pressPlayAgain gameOverState = resetGame gameOverState := rfl
  refine ⟨fun s => ?_, hp, ?_⟩
  · simp [resetGame, clearRef_eq]
  · rw [hp, resetGame_eq]
    exact ⟨rfl, rfl, rfl, rfl, rfl, rfl⟩

/-! ## C9: timers that survive a reset -/

/-- C9 fails on the code: `resetGame` clears only through `timerRef`, `powerTimeRef`,
`bubbleTimerRef` and `powerBubbleTimerRef`. After a press on Play Again in `gameOverState` the
phase is NotStarted, yet the pain spawner interval (handle 2), the bonus spawner interval
(handle 3) and the laser timeout (handle 4) are still in the timer table; when the pain spawner
then fires, a Pain bubble enters the collection while the phase is still NotStarted. The
unmount cleanup cancels the laser timeout but leaves the same two intervals. -/
theorem resetGame_leaves_timers_active :
    phase (pressPlayAgain gameOverState) = Phase.NotStarted ∧
      (pressPlayAgain gameOverState).timers
        = [⟨2, TimerKind.spawnPainBubble⟩, ⟨3, TimerKind.spawnBonusBubble⟩,
            ⟨4, TimerKind.hideLaser⟩] ∧
      phase (step scr400 (pressPlayAgain gameOverState) (Event.timerFires 2 0))
        = Phase.NotStarted ∧
      (step scr400 (pressPlayAgain gameOverState) (Event.timerFires 2 0)).painBubbles
        = [⟨2, 50, 200, 35 / 2⟩, ⟨1, 0, 700, 35 / 2⟩] ∧
      (unmountCleanup gameOverState).timers
        = [⟨2, TimerKind.spawnPainBubble⟩, ⟨3, TimerKind.spawnBonusBubble⟩] := by
  have hp : pressPlayAgain gameOverState = resetGame gameOverState := rfl
  have ht : (resetGame gameOverState).timers
      = [⟨2, TimerKind.spawnPainBubble⟩, ⟨3, TimerKind.spawnBonusBubble⟩,
          ⟨4, TimerKind.hideLaser⟩] := by
    rw [resetGame_timers]
    simp [gameOverState, initialState, List.filter_cons]
  have he : resetGame gameOverState
      = { gameOverState with
          gameStarted := false
          gameOver := false
          bubbles := []
          score := 0
          timeLeft := 120
          laserVisible := false
          bubbleIdRef := 1
          timers :=
            [⟨2, TimerKind.spawnPainBubble⟩, ⟨3, TimerKind.spawnBonusBubble⟩,
              ⟨4, TimerKind.hideLaser⟩] } := by
    rw [resetGame_eq, ht]
  rw [hp]
  refine ⟨?_, ht, ?_, ?_, ?_⟩
  · rw [he]; rfl
  · rw [he]
    simp [step, timerFires, List.find?_cons, spawnPainBubble, phase, gameOverState]
  · rw [he]
    simp [step, timerFires, List.find?_cons, spawnPainBubble, gameOverState, initialState,
      scr400]
    norm_num
  · simp [unmountCleanup, clearRef_timers, List.filter_filter, gameOverState, initialState,
      List.filter_cons]

/-! ## C11: aim, then fire -/

/-- C11 fails on the code in its middle part. In `aimedState` a tap at `tapX = 200` does set
the gun to `200 - 30` and nothing else, the laser of the following fire action is at
`200 - 2 = 198`, and the Regular bubble under it is removed with the score going from 0 to 1
(as is the lone bubble of `loneBubbleState`). But the Pain bubble and the Bonus bubble under
the same laser stay, the score is 1 and not 6, and no timeout is set: the body of `fireLaser`
is left at line 111, where `checkPowerHits` calls the unbound `setPowerBubbles`, so
`checkPainHits`, `checkBonusHits` and `setTimeout` (lines 112-118) never run. In every state a
shot leaves the Pain and the Bonus collection as they were. -/
theorem fire_tests_regular_collection_only :
    handleTap aimedState 200 = { aimedState with gunPosition := 200 - 30 } ∧
      laserX (handleTap aimedState 200) = 198 ∧
      (fireLaser (handleTap aimedState 200)).threw = true ∧
      (pressGameArea (handleTap aimedState 200)).bubbles = [] ∧
      (pressGameArea (handleTap aimedState 200)).score = 1 ∧
      isHit 198 ⟨2, 185, 700, 35 / 2⟩ = true ∧ isHit 198 ⟨3, 190, 700, 20⟩ = true ∧
      (pressGameArea (handleTap aimedState 200)).painBubbles = [⟨2, 185, 700, 35 / 2⟩] ∧
      (pressGameArea (handleTap aimedState 200)).bonusBubbles = [⟨3, 190, 700, 20⟩] ∧
      (pressGameArea (handleTap aimedState 200)).timers = [] ∧
      (pressGameArea (handleTap aimedState 200)).laserVisible = true ∧
      loneBubbleState.gunPosition = 170 ∧ laserX loneBubbleState = 198 ∧
      loneBubbleState.score = 0 ∧ (pressGameArea loneBubbleState).bubbles = [] ∧
      (pressGameArea loneBubbleState).score = 1 ∧
      (∀ s : State, (fireLaser s).threw = true ∧
        (fireLaser s).state.painBubbles = s.painBubbles ∧
        (fireLaser s).state.bonusBubbles = s.bonusBubbles) := by
  have htap : handleTap aimedState 200 = { aimedState with gunPosition := 200 - 30 } := by
    have : (!aimedState.gameStarted || aimedState.gameOver) = false := rfl
    simp only [handleTap, this, Bool.false_eq_true, if_false, gunWidth]
    norm_num
  have hlx : laserX (handleTap aimedState 200) = 198 := by
    rw [htap]
    simp only [laserX, gunWidth, laserWidth]
    norm_num
  have hpress : pressGameArea (handleTap aimedState 200)
      = (fireLaser (handleTap aimedState 200)).state := by
    rw [htap]; rfl
  have hgun : loneBubbleState.gunPosition = 170 := by
    simp [loneBubbleState, initialState, scr400, gunWidth]
    norm_num
  have hl : laserX loneBubbleState = 198 := by
    rw [laserX, hgun]
    norm_num [gunWidth, laserWidth]
  have hit1 : isHit 198 ⟨1, 185, 700, 30⟩ = true := by rw [isHit_iff]; norm_num
  have hit2 : isHit 198 ⟨2, 185, 700, 35 / 2⟩ = true := by rw [isHit_iff]; norm_num
  have hit3 : isHit 198 ⟨3, 190, 700, 20⟩ = true := by rw [isHit_iff]; norm_num
  have hpl : pressGameArea loneBubbleState = (fireLaser loneBubbleState).state := rfl
  refine ⟨htap, hlx, rfl, ?_, ?_, hit2, hit3, ?_, ?_, ?_, ?_, hgun, hl, rfl, ?_, ?_,
    fun s => ⟨rfl, fireLaser_painBubbles s, fireLaser_bonusBubbles s⟩⟩
  · rw [hpress, fireLaser_bubbles, hlx, htap]
    simp [checkHits, dropHit_scan, aimedState, initialState, hit1]
  · rw [hpress, fireLaser_score, hlx, htap]
    simp [aimedState, initialState, List.filter_cons, hit1]
  · rw [hpress, fireLaser_painBubbles, htap]
    rfl
  · rw [hpress, fireLaser_bonusBubbles, htap]
    rfl
  · rw [hpress, fireLaser_timers, htap]
    rfl
  · rw [hpress, htap]
    rfl
  · rw [hpl, fireLaser_bubbles, hl]
    simp [checkHits, dropHit_scan, loneBubbleState, initialState, hit1]
  · rw [hpl, fireLaser_score, hl]
    simp [loneBubbleState, initialState, List.filter_cons, hit1]

/-! ## C13: Pain hits at score 0 -/

/-- C13 fails on the code in its first part: in `twoPainState` (running, score 0) the laser at
198 has the Pain bubbles with id 2 and 4 under it and no other bubble, and a fire action
leaves the score at 0, but it removes neither of them: the Pain collection is as before,
because the body of `fireLaser` is left at line 111, before `checkPainHits`. -/
theorem fire_keeps_hit_pain_bubbles :
    running twoPainState = true ∧ twoPainState.score = 0 ∧ laserX twoPainState = 198 ∧
      twoPainState.painBubbles.filter (isHit 198)
        = [⟨2, 190, 700, 35 / 2⟩, ⟨4, 181, 600, 35 / 2⟩] ∧
      twoPainState.bubbles.filter (isHit 198) = [] ∧
      twoPainState.bonusBubbles.filter (isHit 198) = [] ∧
      (pressGameArea twoPainState).score = 0 ∧
      (pressGameArea twoPainState).painBubbles
        = [⟨2, 190, 700, 35 / 2⟩, ⟨3, 20, 650, 35 / 2⟩, ⟨4, 181, 600, 35 / 2⟩] := by
  have hl : laserX twoPainState = 198 := by
    simp [laserX, twoPainState, initialState, scr400, gunWidth, laserWidth]
    norm_num
  have h1 : isHit 198 ⟨1, 0, 700, 30⟩ = false := by
    rw [← Bool.not_eq_true, isHit_iff]; norm_num
  have h2 : isHit 198 ⟨2, 190, 700, 35 / 2⟩ = true := by rw [isHit_iff]; norm_num
  have h3 : isHit 198 ⟨3, 20, 650, 35 / 2⟩ = false := by
    rw [← Bool.not_eq_true, isHit_iff]; norm_num
  have h4 : isHit 198 ⟨4, 181, 600, 35 / 2⟩ = true := by rw [isHit_iff]; norm_num
  have hr : twoPainState.bubbles.filter (isHit 198) = [] := by
    simp [twoPainState, initialState, List.filter_cons, h1]
  have hpress : pressGameArea twoPainState = (fireLaser twoPainState).state := rfl
  refine ⟨rfl, rfl, hl, ?_, hr, ?_, ?_, ?_⟩
  · simp [twoPainState, initialState, List.filter_cons, h2, h3, h4]
  · simp [twoPainState, initialState]
  · rw [hpress, fireLaser_score, hl, hr]
    rfl
  · rw [hpress, fireLaser_painBubbles]
    rfl

/-! ## The id discipline -/

theorem thins_refl (c : List Bubble) : Thins c c :=
  ⟨List.Sublist.refl _, fun b hb => ⟨b, hb, rfl, rfl⟩⟩

theorem thins_nil (c : List Bubble) : Thins [] c :=
  ⟨List.nil_sublist _, fun b hb => by cases hb⟩

theorem thins_filter (p : Bubble → Bool) (c : List Bubble) : Thins (c.filter p) c :=
  ⟨List.Sublist.map _ (List.filter_sublist c),
    fun b hb => ⟨b, (List.mem_filter.mp hb).1, rfl, rfl⟩⟩

theorem thins_dropHit (ids : List Nat) (c : List Bubble) : Thins (dropHit ids c) c :=
  thins_filter _ c

theorem thins_moveBubbles (c : List Bubble) : Thins (moveBubbles c) c := by
  unfold moveBubbles
  constructor
  · have h : (c.map (fun bubble => ({ bubble with y := bubble.y - bubbleSpeed } : Bubble))).map
        Bubble.id = c.map Bubble.id := by
      rw [List.map_map]; rfl
    rw [← h]
    exact List.Sublist.map _ (List.filter_sublist _)
  · intro b' hb'
    obtain ⟨b, hb, rfl⟩ := List.mem_map.mp (List.mem_filter.mp hb').1
    exact ⟨b, hb, rfl, rfl⟩

theorem thins_moveRandomly (rand : Nat → ℚ) (c : List Bubble) :
    Thins (moveRandomly rand c) c := by
  unfold moveRandomly
  constructor
  · have h : (c.enum.map
        (fun ib => ({ ib.2 with y := ib.2.y - rand ib.1 * 20 } : Bubble))).map Bubble.id
        = c.map Bubble.id := by
      rw [List.map_map]
      have : c.map Bubble.id = (c.enum.map Prod.snd).map Bubble.id := by
        rw [List.enum_map_snd]
      rw [this, List.map_map]
      rfl
    rw [← h]
    exact List.Sublist.map _ (List.filter_sublist _)
  · intro b' hb'
    obtain ⟨ib, hib, rfl⟩ := List.mem_map.mp (List.mem_filter.mp hb').1
    have hmem : ib.2 ∈ c := by
      have : ib.2 ∈ c.enum.map Prod.snd := List.mem_map.mpr ⟨ib, hib, rfl⟩
      rwa [List.enum_map_snd] at this
    exact ⟨ib.2, hmem, rfl, rfl⟩

/-- Dropping entities, moving them and letting the counter grow keep the id discipline. -/
theorem idsFresh_of_thins (s s' : State) (h : IdsFresh s) (hover : s'.gameOver = false)
    (hcount : s.bubbleIdRef ≤ s'.bubbleIdRef) (hb : Thins s'.bubbles s.bubbles)
    (hp : Thins s'.painBubbles s.painBubbles) (hn : Thins s'.bonusBubbles s.bonusBubbles) :
    IdsFresh s' := by
  obtain ⟨_, hlt, hnd⟩ := h
  refine ⟨hover, ?_, ?_⟩
  · intro b' hb'
    have horigin : ∃ b ∈ entities s, b'.id = b.id ∧ b'.radius = b.radius := by
      simp only [entities, List.mem_append] at hb' ⊢
      rcases hb' with (h1 | h1) | h1
      · obtain ⟨b, hm, e⟩ := hb.2 b' h1
        exact ⟨b, Or.inl (Or.inl hm), e⟩
      · obtain ⟨b, hm, e⟩ := hp.2 b' h1
        exact ⟨b, Or.inl (Or.inr hm), e⟩
      · obtain ⟨b, hm, e⟩ := hn.2 b' h1
        exact ⟨b, Or.inr hm, e⟩
    obtain ⟨b, hm, e1, e2⟩ := horigin
    have := hlt b hm
    rw [e1, e2]
    exact ⟨lt_of_lt_of_le this.1 hcount, this.2⟩
  · have hsub : ((entities s').map Bubble.id).Sublist ((entities s).map Bubble.id) := by
      simp only [entities, List.map_append]
      exact List.Sublist.append (List.Sublist.append hb.1 hp.1) hn.1
    exact List.Nodup.sublist hsub hnd

/-- Appending an entity with the counter as id and a positive radius to any one collection,
and raising the counter, keeps the id discipline. -/
theorem idsFresh_of_spawn (s s' : State) (h : IdsFresh s) (r x y : ℚ) (hr : 0 < r)
    (hover : s'.gameOver = false) (hcount : s'.bubbleIdRef = s.bubbleIdRef + 1)
    (hcase :
      (s'.bubbles = s.bubbles ++ [⟨s.bubbleIdRef, x, y, r⟩] ∧ s'.painBubbles = s.painBubbles
          ∧ s'.bonusBubbles = s.bonusBubbles) ∨
        (s'.bubbles = s.bubbles ∧ s'.painBubbles = s.painBubbles ++ [⟨s.bubbleIdRef, x, y, r⟩]
          ∧ s'.bonusBubbles = s.bonusBubbles) ∨
        (s'.bubbles = s.bubbles ∧ s'.painBubbles = s.painBubbles
          ∧ s'.bonusBubbles = s.bonusBubbles ++ [⟨s.bubbleIdRef, x, y, r⟩])) :
    IdsFresh s' := by
  obtain ⟨_, hlt, hnd⟩ := h
  have hnew : s.bubbleIdRef ∉ (entities s).map Bubble.id := by
    intro hmem
    obtain ⟨b, hb, e⟩ := List.mem_map.mp hmem
    have := (hlt b hb).1
    omega
  have hperm : ((entities s').map Bubble.id).Perm
      (s.bubbleIdRef :: (entities s).map Bubble.id) := by
    rcases hcase with ⟨e1, e2, e3⟩ | ⟨e1, e2, e3⟩ | ⟨e1, e2, e3⟩
    · simp only [entities, e1, e2, e3, List.map_append, List.map_cons, List.map_nil,
        List.append_assoc, List.singleton_append]
      exact List.perm_middle
    · simp only [entities, e1, e2, e3, List.map_append, List.map_cons, List.map_nil,
        List.append_assoc, List.singleton_append]
      rw [← List.append_assoc, ← List.append_assoc]
      exact List.perm_middle
    · simp only [entities, e1, e2, e3, List.map_append, List.map_cons, List.map_nil]
      rw [← List.append_assoc]
      exact List.perm_append_singleton _ _
  refine ⟨hover, ?_, ?_⟩
  · intro b hb
    have hmem : b ∈ entities s ∨ b = ⟨s.bubbleIdRef, x, y, r⟩ := by
      rcases hcase with ⟨e1, e2, e3⟩ | ⟨e1, e2, e3⟩ | ⟨e1, e2, e3⟩ <;>
        · simp only [entities, e1, e2, e3, List.mem_append, List.mem_singleton] at hb ⊢
          tauto
    rcases hmem with hm | rfl
    · have := hlt b hm
      exact ⟨by omega, this.2⟩
    · exact ⟨by simp [hcount], hr⟩
  · rw [List.Perm.nodup_iff hperm]
    exact List.nodup_cons.mpr ⟨hnew, hnd⟩

theorem idsFresh_spawnBubble (scr : Screen) (u : ℚ) (s : State) (h : IdsFresh s) :
    IdsFresh (spawnBubble scr u s) :=
  idsFresh_of_spawn s _ h 30 _ _ (by norm_num) h.1 rfl (Or.inl ⟨rfl, rfl, rfl⟩)

theorem idsFresh_spawnPainBubble (scr : Screen) (u : ℚ) (s : State) (h : IdsFresh s) :
    IdsFresh (spawnPainBubble scr u s) :=
  idsFresh_of_spawn s _ h (35 / 2) _ _ (by norm_num) h.1 rfl (Or.inr (Or.inl ⟨rfl, rfl, rfl⟩))

theorem idsFresh_spawnBonusBubble (scr : Screen) (u : ℚ) (s : State) (h : IdsFresh s) :
    IdsFresh (spawnBonusBubble scr u s) :=
  idsFresh_of_spawn s _ h 20 _ _ (by norm_num) h.1 rfl (Or.inr (Or.inr ⟨rfl, rfl, rfl⟩))

theorem idsFresh_step (scr : Screen) (s : State) (e : Event) (h : IdsFresh s) :
    IdsFresh (step scr s e) := by
  cases e with
  | pressStart =>
    simp only [step, pressStart]
    split_ifs
    · exact idsFresh_of_thins s _ h rfl (le_refl _) (thins_nil _) (thins_nil _) (thins_refl _)
    · exact h
  | pressPlayAgain =>
    simp only [step, pressPlayAgain]
    split_ifs with hover
    · rw [h.1] at hover
      cases hover
    · exact h
  | tapGunHandler locationX =>
    simp only [step, handleTap]
    split_ifs
    · exact h
    · exact idsFresh_of_thins s _ h h.1 (le_refl _) (thins_refl _) (thins_refl _) (thins_refl _)
  | pressGameArea =>
    simp only [step, pressGameArea]
    split_ifs
    · exact h
    · refine idsFresh_of_thins s _ h ?_ ?_ ?_ ?_ ?_
      · simpa [handleGun, fireLaser_eq, clearRef_eq, checkHits] using h.1
      · simp [handleGun, fireLaser_eq, clearRef_eq, checkHits]
      · show Thins (fireLaser s).state.bubbles s.bubbles
        rw [fireLaser_bubbles]
        exact thins_dropHit _ _
      · show Thins (fireLaser s).state.painBubbles s.painBubbles
        rw [fireLaser_painBubbles]
        exact thins_refl _
      · show Thins (fireLaser s).state.bonusBubbles s.bonusBubbles
        rw [fireLaser_bonusBubbles]
        exact thins_refl _
  | timerFires handle u =>
    simp only [step, timerFires]
    split
    · exact h
    · split
      · exact idsFresh_spawnBubble scr u s h
      · exact idsFresh_spawnPainBubble scr u s h
      · exact idsFresh_spawnBonusBubble scr u s h
      · exact idsFresh_of_thins s _ h h.1 (le_refl _) (thins_refl _) (thins_refl _)
          (thins_refl _)
  | moveBubbles =>
    simp only [step, moveBubblesTick]
    split_ifs
    · exact h
    · exact idsFresh_of_thins s _ h h.1 (le_refl _) (thins_moveBubbles _) (thins_refl _)
        (thins_refl _)
  | movePainBubbles rand =>
    simp only [step, movePainBubblesTick]
    split_ifs
    · exact h
    · exact idsFresh_of_thins s _ h h.1 (le_refl _) (thins_refl _) (thins_moveRandomly rand _)
        (thins_refl _)
  | moveBonusBubbles rand =>
    simp only [step, moveBonusBubblesTick]
    split_ifs
    · exact h
    · exact idsFresh_of_thins s _ h h.1 (le_refl _) (thins_refl _) (thins_refl _)
        (thins_moveRandomly rand _)

theorem idsFresh_perform (scr : Screen) (s : State) (op : Operation) (h : IdsFresh s) :
    IdsFresh (perform scr s op) := by
  cases op with
  | event e => exact idsFresh_step scr s e h
  | spawnBubble u => exact idsFresh_spawnBubble scr u s h
  | spawnPainBubble u => exact idsFresh_spawnPainBubble scr u s h
  | spawnBonusBubble u => exact idsFresh_spawnBonusBubble scr u s h

theorem idsFresh_performAll (scr : Screen) (ops : List Operation) (s : State)
    (h : IdsFresh s) : IdsFresh (performAll scr s ops) := by
  induction ops generalizing s with
  | nil => exact h
  | cons op rest ih => exact ih (perform scr s op) (idsFresh_perform scr s op h)

theorem idsFresh_initialState (scr : Screen) : IdsFresh (initialState scr) := by
  refine ⟨rfl, ?_, ?_⟩
  · intro b hb
    simp [entities, initialState] at hb
  · simp [entities, initialState]

/-- Every run of events is a run of operations. -/
theorem run_eq_performAll (scr : Screen) (s : State) (events : List Event) :
    run scr s events = performAll scr s (events.map Operation.event) := by
  induction events generalizing s with
  | nil => rfl
  | cons e es ih => exact ih (step scr s e)

/-! ## C10: ids and radii in every reachable state -/

/-- C10: in every state reached from the state at mount by the events of the component (start,
reset, aim, fire, timers firing, motion ticks) and by calls of the three spawners, no two
entities across the regular, pain and bonus collections share an id, and every entity has a
radius greater than 0. -/
theorem ids_unique_and_radius_positive (scr : Screen) (ops : List Operation) :
    ((entities (performAll scr (initialState scr) ops)).map Bubble.id).Nodup ∧
      ∀ b ∈ entities (performAll scr (initialState scr) ops), 0 < b.radius := by
  have h := idsFresh_performAll scr ops (initialState scr) (idsFresh_initialState scr)
  exact ⟨h.2.2, fun b hb => (h.2.1 b hb).2⟩

/-- An instance with entities in all three collections: a press on Start Game, then one call
of each spawner with draw `1 / 2`; the ids are 1, 2, 3. -/
theorem ids_after_three_spawns :
    entities
        (performAll scr400 (initialState scr400)
          [Operation.event Event.pressStart, Operation.spawnBubble (1 / 2),
            Operation.spawnPainBubble (1 / 2), Operation.spawnBonusBubble (1 / 2)])
      = [⟨1, 170, 700, 30⟩, ⟨2, 365 / 2, 700, 35 / 2⟩, ⟨3, 180, 700, 20⟩] := by
  simp [performAll, perform, step, pressStart, startGame_eq, spawnBubble, spawnPainBubble,
    spawnBonusBubble, entities, initialState, scr400]
  norm_num

/-! ## C1: what a hit check removes -/

/-- In a state that keeps the id discipline each collection has pairwise distinct ids. -/
theorem nodup_ids_of_idsFresh (s : State) (h : IdsFresh s) :
    (s.bubbles.map Bubble.id).Nodup ∧ (s.painBubbles.map Bubble.id).Nodup ∧
      (s.bonusBubbles.map Bubble.id).Nodup := by
  have hnd := h.2.2
  simp only [entities, List.map_append] at hnd
  have h12 := List.Nodup.of_append_left hnd
  exact ⟨List.Nodup.of_append_left h12, List.Nodup.of_append_right h12,
    List.Nodup.of_append_right hnd⟩

/-- C1: for every laser x-coordinate and each of the three collections, as they stand in any
state reached from the state at mount by the events of the component and by calls of the
spawners, the collection after the hit check (`checkHits`, `checkPainHits`, `checkBonusHits`)
consists of exactly the entities of the previous collection that do not satisfy
`abs((x + radius) - laserX) <= radius`, in their original order. -/
theorem checks_keep_exactly_unhit (scr : Screen) (ops : List Operation) (score : Int)
    (laserX : ℚ) :
    (checkHits (performAll scr (initialState scr) ops) laserX).bubbles
        = (performAll scr (initialState scr) ops).bubbles.filter (fun b => !isHit laserX b) ∧
      (checkPainHits score (performAll scr (initialState scr) ops) laserX).painBubbles
        = (performAll scr (initialState scr) ops).painBubbles.filter
            (fun b => !isHit laserX b) ∧
      (checkBonusHits (performAll scr (initialState scr) ops) laserX).bonusBubbles
        = (performAll scr (initialState scr) ops).bonusBubbles.filter
            (fun b => !isHit laserX b) := by
  have h := nodup_ids_of_idsFresh _
    (idsFresh_performAll scr ops (initialState scr) (idsFresh_initialState scr))
  exact ⟨dropHit_scan_of_nodup laserX _ h.1, dropHit_scan_of_nodup laserX _ h.2.1,
    dropHit_scan_of_nodup laserX _ h.2.2⟩

/-! ## C3: the score is never negative -/

/-- A press on the game area never lowers the score. -/
theorem pressGameArea_score_ge (s : State) : s.score ≤ (pressGameArea s).score := by
  unfold pressGameArea
  split_ifs
  · exact le_refl _
  · show s.score ≤ (fireLaser s).state.score
    rw [fireLaser_score]
    have : (0 : Int) ≤ ((s.bubbles.filter (isHit (laserX s))).length : Int) :=
      Int.natCast_nonneg _
    omega

theorem score_nonneg_perform (scr : Screen) (s : State) (op : Operation) (h : 0 ≤ s.score) :
    0 ≤ (perform scr s op).score := by
  cases op with
  | event e =>
    cases e with
    | pressStart =>
      simp only [perform, step, pressStart]
      split_ifs
      · exact le_refl _
      · exact h
    | pressPlayAgain =>
      simp only [perform, step, pressPlayAgain]
      split_ifs
      · rw [resetGame_eq]
      · exact h
    | tapGunHandler locationX =>
      simp only [perform, step, handleTap]
      split_ifs <;> exact h
    | pressGameArea => exact le_trans h (pressGameArea_score_ge s)
    | timerFires handle u =>
      simp only [perform, step, timerFires]
      split
      · exact h
      · split <;> exact h
    | moveBubbles =>
      simp only [perform, step, moveBubblesTick]
      split_ifs <;> exact h
    | movePainBubbles rand =>
      simp only [perform, step, movePainBubblesTick]
      split_ifs <;> exact h
    | moveBonusBubbles rand =>
      simp only [perform, step, moveBonusBubblesTick]
      split_ifs <;> exact h
  | spawnBubble u => exact h
  | spawnPainBubble u => exact h
  | spawnBonusBubble u => exact h

theorem score_nonneg_performAll (scr : Screen) (ops : List Operation) (s : State)
    (h : 0 ≤ s.score) : 0 ≤ (performAll scr s ops).score := by
  induction ops generalizing s with
  | nil => exact h
  | cons op rest ih => exact ih (perform scr s op) (score_nonneg_perform scr s op h)

/-- C3: the score is never negative. In every state reached from the state at mount (score 0)
by start, reset, spawn, motion-tick, aim and fire operations the score is `>= 0`; and for every
state with a score `>= 0`, whatever Pain entities lie under the laser, the score after a fire
action is `>= 0`, indeed not below the score before it. -/
theorem score_never_negative (scr : Screen) (ops : List Operation) (s : State)
    (hs : 0 ≤ s.score) :
    0 ≤ (performAll scr (initialState scr) ops).score ∧ 0 ≤ (pressGameArea s).score ∧
      s.score ≤ (pressGameArea s).score :=
  ⟨score_nonneg_performAll scr ops (initialState scr) (le_refl _),
    le_trans hs (pressGameArea_score_ge s), pressGameArea_score_ge s⟩

/-- Witness for C3: `onePointState`, score 1 with two Pain bubbles under the laser; the score
after the fire action is 1. -/
theorem score_never_negative_witness :
    0 ≤ onePointState.score ∧
      onePointState.painBubbles.filter (isHit (laserX onePointState))
        = [⟨2, 190, 700, 35 / 2⟩, ⟨3, 181, 600, 35 / 2⟩] ∧
      (pressGameArea onePointState).score = 1 ∧
      0 ≤ (pressGameArea onePointState).score := by
  have hl : laserX onePointState = 198 := by
    simp [laserX, onePointState, initialState, scr400, gunWidth, laserWidth]
    norm_num
  have h2 : isHit 198 ⟨2, 190, 700, 35 / 2⟩ = true := by rw [isHit_iff]; norm_num
  have h3 : isHit 198 ⟨3, 181, 600, 35 / 2⟩ = true := by rw [isHit_iff]; norm_num
  have hpress : pressGameArea onePointState = (fireLaser onePointState).state := rfl
  refine ⟨by decide, ?_, ?_,
    (score_never_negative scr400 [] onePointState (by decide)).2.1⟩
  · rw [hl]
    simp [onePointState, initialState, List.filter_cons, h2, h3]
  · rw [hpress, fireLaser_score]
    simp [onePointState, initialState]

end BubblePopper
